import Mathlib

/-!
Verification of the broker error classifier (pkg/kgo/errors.go) and of the
kversion version table of the franz-go repository.

The Go error values that can reach the classifier are modelled as a small
inductive type: sentinel errors created with errors.New, fmt.Errorf
wrappers, os.SyscallError wrappers, net.OpError wrappers carrying their Op
field, and leaf errors that implement the Temporary method (for example
syscall.Errno or net.DNSError). The functions errors.Is and errors.As are
embedded as recursive walks over the unwrap chain, exactly as the Go
runtime walks Unwrap.
-/

/-- The package level sentinel errors of pkg/kgo/errors.go together with the
standard library sentinels the classifier compares against, plus an `other`
constructor for any unrelated sentinel. Comparison is by identity, as with
errors.Is on errors.New values. -/
inductive Sentinel
  | ioEOF
  | netErrClosed
  | ctxCanceled
  | ctxDeadlineExceeded
  | errUnknownBroker
  | errChosenBrokerDead
  | errSaslReauthLoop
  | errProducerIDLoadFail
  | errCorrelationIDMismatch
  | errUnknownRequestKey
  | errBrokerTooOld
  | ErrClientClosed
  | other (tag : Nat)
  deriving DecidableEq, Repr

/-- A Go error value as seen by the classifier: a sentinel leaf, a fmt.Errorf
wrapper, an os.SyscallError wrapper, a net.OpError wrapper with its Op
string, or a leaf that implements Temporary (its boolean is the value that
the Temporary method reports). -/
inductive GoErr
  | simple (s : Sentinel)
  | wrap (inner : GoErr)
  | syscallError (inner : GoErr)
  | opError (op : String) (inner : GoErr)
  | tempLeaf (temp : Bool)
  deriving DecidableEq, Repr

/-- errors.Is(e, s) for a sentinel target: walk the unwrap chain and compare
by identity. None of the modelled error types implements an Is method, and
a sentinel equals only itself. -/
def errIs : GoErr → Sentinel → Bool
  | .simple t, s => decide (t = s)
  | .wrap i, s => errIs i s
  | .syscallError i, s => errIs i s
  | .opError _ i, s => errIs i s
  | .tempLeaf _, _ => false

/-- errors.As(e, target) for target type *os.SyscallError: true iff the
unwrap chain contains a syscallError node. -/
def hasSyscallError : GoErr → Bool
  | .syscallError _ => true
  | .wrap i => hasSyscallError i
  | .opError _ i => hasSyscallError i
  | .simple _ => false
  | .tempLeaf _ => false

/-- errors.As(e, target) for target type *net.OpError, returning the Op
field of the first net.OpError found on the unwrap chain. -/
def firstOpErrorOp : GoErr → Option String
  | .opError op _ => some op
  | .wrap i => firstOpErrorOp i
  | .syscallError i => firstOpErrorOp i
  | .simple _ => none
  | .tempLeaf _ => none

/-- isDialErr from pkg/kgo/errors.go: the first net.OpError on the chain has
Op equal to "dial". -/
def isDialErr (e : GoErr) : Bool :=
  decide (firstOpErrorOp e = some "dial")

/-- Whether this error value itself implements the Temporary method, and if
so what it returns. A tempLeaf reports its stored boolean. os.SyscallError
computes Temporary from its wrapped errno; net.OpError computes Temporary
from its Err field (looking through an os.SyscallError wrapper first), so
both reduce to the temporariness of the inner value. Plain sentinels and
fmt.Errorf wrappers do not implement Temporary. -/
def selfTemporary : GoErr → Option Bool
  | .tempLeaf t => some t
  | .syscallError i => some ((selfTemporary i).getD false)
  | .opError _ i => some ((selfTemporary i).getD false)
  | .simple _ => none
  | .wrap _ => none

/-- errors.As(e, target) for an interface target with a Temporary method:
stop at the first chain element that implements Temporary and return its
value. -/
def firstTemporary : GoErr → Option Bool
  | .tempLeaf t => some t
  | .syscallError i => some ((selfTemporary i).getD false)
  | .opError _ i => some ((selfTemporary i).getD false)
  | .wrap i => firstTemporary i
  | .simple _ => none

/-- Modelled from the spec: the helper isNetClosedErr lives in a build
tagged file of the repository that is not present here; the spec says the
classifier retries when the chain contains a network connection closed
error, which is errors.Is against net.ErrClosed. -/
def isNetClosedErr (e : GoErr) : Bool :=
  errIs e Sentinel.netErrClosed

/-- isRetriableBrokerErr from pkg/kgo/errors.go, translated branch by
branch. A Go nil error is the none case and is not retriable. -/
def isRetriableBrokerErr (err : Option GoErr) : Bool :=
  match err with
  | none => false
  | some e =>
    if hasSyscallError e then
      !isDialErr e
    else if isNetClosedErr e || errIs e Sentinel.ioEOF then
      true
    else if errIs e Sentinel.errProducerIDLoadFail then
      true
    else if errIs e Sentinel.errChosenBrokerDead then
      true
    else if errIs e Sentinel.errSaslReauthLoop then
      true
    else if errIs e Sentinel.errCorrelationIDMismatch then
      true
    else
      match firstTemporary e with
      | some t => t
      | none => false

/-- isSkippableBrokerErr from pkg/kgo/errors.go. On a Go nil error both
errors.Is and errors.As report false, so the none case is false. -/
def isSkippableBrokerErr (err : Option GoErr) : Bool :=
  match err with
  | none => false
  | some e =>
    if errIs e Sentinel.errUnknownBroker then
      true
    else if (firstOpErrorOp e).isSome
        && !errIs e Sentinel.ctxCanceled
        && !errIs e Sentinel.ctxDeadlineExceeded then
      true
    else
      false

/-!
The kversion version table. The file pkg/kversion/kversion.go is not part
of the sources here, only its test file is, so the table operations are
modelled from the spec, section 4.1, and checked against the in repository
test file pkg/kversion/kversion_test.go.

A table is the k2v field: a dense list of max versions indexed by request
key, with -1 meaning the key is not supported.
-/

/-- Modelled from the spec: set_max(key, version) on the k2v list; a
negative version unsets the key, and the list grows with -1 entries so the
key fits, as exercised by the in repository test file. -/
def SetMaxKeyVersion : List Int → Nat → Int → List Int
  | [], 0, v => [if v < 0 then -1 else v]
  | [], k+1, v => -1 :: SetMaxKeyVersion [] k v
  | _ :: t, 0, v => (if v < 0 then -1 else v) :: t
  | x :: t, k+1, v => x :: SetMaxKeyVersion t k v

/-- Modelled from the spec: remove the trailing -1 entries of a k2v list,
giving the effective prefix used by equality. -/
def trimK2v : List Int → List Int
  | [] => []
  | x :: t =>
    match trimK2v t with
    | [] => if x = -1 then [] else [x]
    | y :: r => x :: y :: r

/-- Modelled from the spec: table equality trims trailing -1 entries from
both sides and then compares element wise. -/
def Equal (a b : List Int) : Bool :=
  decide (trimK2v a = trimK2v b)

/-- The max version of a key, with keys beyond the list reading as -1. -/
def keyVersion (t : List Int) (k : Nat) : Int :=
  t.getD k (-1)

/-- Modelled from the spec: the target matches a baseline when every key
supported by the baseline is supported by the target at the same or a
higher max version. -/
def vtMatches (t b : List Int) : Bool :=
  (List.range b.length).all fun k =>
    decide (keyVersion b k < 0) || decide (keyVersion b k ≤ keyVersion t k)

/-- Modelled from the spec: the target unsets a key the baseline requires. -/
def vtMissing (t b : List Int) : Bool :=
  (List.range b.length).any fun k =>
    decide (0 ≤ keyVersion b k) && decide (keyVersion t k < 0)

/-- Modelled from the spec: the target sets a key the baseline does not
recognize, or sets a version higher than the baseline max. -/
def vtHasExtra (t b : List Int) : Bool :=
  (List.range t.length).any fun k =>
    decide (0 ≤ keyVersion t k) && decide (keyVersion b k < keyVersion t k)

/-- Modelled from the spec: the built in baseline for the oldest release.
The full repository carries one baseline per Kafka release; this model
carries the baselines the spec and the in repository test file exercise. -/
def V0_8_0 : List Int := [0, 0, 0, 0, 0, 0, 0, 0]

/-- Modelled from the spec: v0.8.1 extends v0.8.0 with keys 8 and 9, as
exercised by the equality test in the in repository test file. -/
def V0_8_1 : List Int := [0, 0, 0, 0, 0, 0, 0, 0, 0, 0]

/-- Modelled from the spec: the v0.9.0 baseline; it does not yet know keys
17 and 18, which v0.10.0 introduces. -/
def V0_9_0 : List Int := [1, 1, 0, 0, 0, 0, 1, 0, 2, 1, 0, 0, 0, 0, 0, 0, 0]

/-- Modelled from the spec: the v0.10.0 baseline, equal to v0.9.0 with keys
0, 1, 3 and 6 raised and keys 17 and 18 introduced, as exercised by the
guess test in the in repository test file. -/
def V0_10_0 : List Int := [2, 2, 0, 1, 0, 0, 2, 0, 2, 1, 0, 0, 0, 0, 0, 0, 0, 0, 0]

/-- Modelled from the spec: the newest baseline of the model, v2.7.0. -/
def V2_7_0 : List Int := [8, 11, 5, 9, 4, 2, 6, 3, 8, 7, 3, 7, 4, 4, 5, 5, 3, 1, 3, 6, 4]

/-- Modelled from the spec: the built in baselines in ascending release
order. -/
def baselines : List (String × List Int) :=
  [("v0.8.0", V0_8_0), ("v0.8.1", V0_8_1), ("v0.9.0", V0_9_0),
   ("v0.10.0", V0_10_0), ("v2.7.0", V2_7_0)]

/-- Modelled from the spec: the newest matching baseline in ascending
release order, together with the baseline right after it when one exists. -/
def findLastBaseline : List (String × List Int) → List Int →
    Option ((String × List Int) × Option (String × List Int))
  | [], _ => none
  | p :: rest, t =>
    match findLastBaseline rest t with
    | some r => some r
    | none => if vtMatches t p.2 then some (p, rest.head?) else none

/-- Modelled from the spec: the release guess. Rules in order: exact
equality with the newest matching baseline returns its name; setting some
but not all of the keys the next baseline introduces returns a between
label; an extra key or version beyond the newest baseline returns an at
least label; missing a required key of the oldest baseline with nothing
extra returns a not even label; anything else is an unknown custom
version. The in repository test file pins each of these outcomes. -/
def VersionGuess (t : List Int) : String :=
  match findLastBaseline baselines t with
  | some (p, nxt) =>
    if Equal t p.2 then p.1
    else
      match nxt with
      | some q =>
        let newKeys := (List.range q.2.length).filter fun k =>
          decide (0 ≤ keyVersion q.2 k) && decide (keyVersion p.2 k < 0)
        if (newKeys.any fun k => decide (0 ≤ keyVersion t k))
            && !(newKeys.all fun k => decide (0 ≤ keyVersion t k)) then
          "between " ++ p.1 ++ " and " ++ q.1
        else if vtHasExtra t V2_7_0 then
          "unknown custom version at least " ++ p.1
        else
          "unknown custom version"
      | none =>
        if vtHasExtra t V2_7_0 then
          "unknown custom version at least " ++ p.1
        else
          "unknown custom version"
  | none =>
    if vtMissing t V0_8_0 && !vtHasExtra t V2_7_0 then
      "not even v0.8.0"
    else
      "unknown custom version"

/-- Two distinct sentinels never both match the same error chain: errors.Is
walks a linear chain to a single leaf. -/
theorem errIs_unique : ∀ (e : GoErr) (s t : Sentinel),
    errIs e s = true → errIs e t = true → s = t
  | .simple u, _, _, hs, ht =>
    (of_decide_eq_true hs).symm.trans (of_decide_eq_true ht)
  | .wrap i, s, t, hs, ht => errIs_unique i s t hs ht
  | .syscallError i, s, t, hs, ht => errIs_unique i s t hs ht
  | .opError _ i, s, t, hs, ht => errIs_unique i s t hs ht
  | .tempLeaf _, _, _, hs, _ => by simp [errIs] at hs

/-- Unsetting a key at or beyond the end of the table only appends trailing
-1 entries, which trimming removes. -/
theorem trimK2v_unset_high : ∀ (a : List Int) (k : Nat), a.length ≤ k →
    trimK2v (SetMaxKeyVersion a k (-1)) = trimK2v a
  | [], 0, _ => rfl
  | [], k+1, _ => by
    have ih : trimK2v (SetMaxKeyVersion [] k (-1)) = trimK2v [] :=
      trimK2v_unset_high [] k (Nat.zero_le k)
    show trimK2v (-1 :: SetMaxKeyVersion [] k (-1)) = trimK2v []
    simp [trimK2v] at ih ⊢
    simp [ih]
  | x :: t, 0, h => by simp at h
  | x :: t, k+1, h => by
    have h2 : t.length ≤ k := by simp at h; omega
    have ih := trimK2v_unset_high t k h2
    show trimK2v (x :: SetMaxKeyVersion t k (-1)) = trimK2v (x :: t)
    simp [trimK2v, ih]

/-- The model reproduces the guess outcomes of the in repository test file
pkg/kversion/kversion_test.go, TestVersionGuess. -/
theorem kversion_guess_matches_tests :
    VersionGuess (SetMaxKeyVersion V0_8_0 0 100) =
      "unknown custom version at least v0.8.0" ∧
    VersionGuess (SetMaxKeyVersion (SetMaxKeyVersion V0_8_0 0 100) 1 (-1)) =
      "unknown custom version" ∧
    VersionGuess (SetMaxKeyVersion V0_9_0 17 0) =
      "between v0.9.0 and v0.10.0" ∧
    VersionGuess (SetMaxKeyVersion (SetMaxKeyVersion (SetMaxKeyVersion
      (SetMaxKeyVersion (SetMaxKeyVersion (SetMaxKeyVersion V0_9_0 17 0)
        0 2) 1 2) 3 1) 6 2) 18 0) = "v0.10.0" ∧
    VersionGuess (SetMaxKeyVersion V2_7_0 22 (-1)) = "v2.7.0" := by
  decide

/-- The model reproduces the equality outcomes of the in repository test
file pkg/kversion/kversion_test.go, TestEqual. -/
theorem kversion_equal_matches_tests :
    Equal (SetMaxKeyVersion V2_7_0 22 (-1)) V2_7_0 = true ∧
    Equal (SetMaxKeyVersion (SetMaxKeyVersion V2_7_0 22 (-1)) 0 (-1)) V2_7_0 = false ∧
    Equal (SetMaxKeyVersion (SetMaxKeyVersion V2_7_0 22 (-1)) 0 (-1))
      (SetMaxKeyVersion V2_7_0 0 (-1)) = true ∧
    Equal V0_8_0 V0_8_1 = false ∧
    Equal V0_8_0 (SetMaxKeyVersion (SetMaxKeyVersion V0_8_1 8 (-1)) 9 (-1)) = true ∧
    Equal (SetMaxKeyVersion (SetMaxKeyVersion V0_8_1 8 (-1)) 9 (-1)) V0_8_0 = true := by
  decide

/-- C1 counterexample: a dial wrapped temporary resolver failure (a
net.OpError with Op dial around a Temporary leaf such as net.DNSError) is
classified retriable on the same broker, and a dial cancelled by the
caller (a net.OpError with Op dial whose chain reaches context.Canceled)
is classified not skippable; both contradict the claim as stated. -/
theorem c1_dial_counterexample :
    isDialErr (GoErr.opError "dial" (GoErr.tempLeaf true)) = true ∧
    isRetriableBrokerErr (some (GoErr.opError "dial" (GoErr.tempLeaf true))) = true ∧
    isDialErr (GoErr.opError "dial" (GoErr.simple Sentinel.ctxCanceled)) = true ∧
    isSkippableBrokerErr (some (GoErr.opError "dial" (GoErr.simple Sentinel.ctxCanceled))) = false := by
  decide

/-- C1 amended: for every dial error, if the chain contains a syscall
level I/O error then the classifier is not retriable on the same broker,
and if the chain contains neither context cancellation nor deadline
exceeded then the classifier is skippable to the next broker. -/
theorem c1_dial_amended (e : GoErr) (hd : isDialErr e = true) :
    (hasSyscallError e = true → isRetriableBrokerErr (some e) = false) ∧
    (errIs e Sentinel.ctxCanceled = false → errIs e Sentinel.ctxDeadlineExceeded = false →
      isSkippableBrokerErr (some e) = true) := by
  have hop : firstOpErrorOp e = some "dial" := of_decide_eq_true hd
  constructor
  · intro hs
    simp [isRetriableBrokerErr, hs, hd]
  · intro hc hdl
    simp [isSkippableBrokerErr, hop, hc, hdl]

/-- C1 amended witness: the typical dial failure, a net.OpError with Op
dial wrapping an os.SyscallError, is not retriable and is skippable. -/
theorem c1_dial_amended_witness :
    (hasSyscallError (GoErr.opError "dial" (GoErr.syscallError (GoErr.tempLeaf false))) = true →
      isRetriableBrokerErr (some (GoErr.opError "dial" (GoErr.syscallError (GoErr.tempLeaf false)))) = false) ∧
    (errIs (GoErr.opError "dial" (GoErr.syscallError (GoErr.tempLeaf false))) Sentinel.ctxCanceled = false →
      errIs (GoErr.opError "dial" (GoErr.syscallError (GoErr.tempLeaf false))) Sentinel.ctxDeadlineExceeded = false →
      isSkippableBrokerErr (some (GoErr.opError "dial" (GoErr.syscallError (GoErr.tempLeaf false)))) = true) :=
  c1_dial_amended (GoErr.opError "dial" (GoErr.syscallError (GoErr.tempLeaf false))) (by decide)

/-- C2: an error whose unwrap chain contains context.Canceled or
context.DeadlineExceeded is never classified skippable to the next
broker. -/
theorem c2_context_not_skippable (e : GoErr)
    (h : errIs e Sentinel.ctxCanceled = true ∨ errIs e Sentinel.ctxDeadlineExceeded = true) :
    isSkippableBrokerErr (some e) = false := by
  have hub : errIs e Sentinel.errUnknownBroker = false := by
    cases hub : errIs e Sentinel.errUnknownBroker with
    | false => rfl
    | true =>
      rcases h with h | h
      · exact absurd (errIs_unique e _ _ hub h) (by decide)
      · exact absurd (errIs_unique e _ _ hub h) (by decide)
  rcases h with h | h <;> simp [isSkippableBrokerErr, hub, h]

/-- C2 witness: a network operation error around a deadline exceeded
context error is not skippable. -/
theorem c2_context_not_skippable_witness :
    errIs (GoErr.opError "read" (GoErr.simple Sentinel.ctxDeadlineExceeded))
      Sentinel.ctxDeadlineExceeded = true ∧
    isSkippableBrokerErr
      (some (GoErr.opError "read" (GoErr.simple Sentinel.ctxDeadlineExceeded))) = false :=
  ⟨by decide,
   c2_context_not_skippable (GoErr.opError "read" (GoErr.simple Sentinel.ctxDeadlineExceeded))
     (Or.inr (by decide))⟩

/-- C3: an error whose chain contains an os.SyscallError and which is not
a dial error is retriable on the same broker, regardless of any Temporary
method on the chain; the syscall branch runs first. -/
theorem c3_syscall_retriable (e : GoErr)
    (hs : hasSyscallError e = true) (hd : isDialErr e = false) :
    isRetriableBrokerErr (some e) = true := by
  simp [isRetriableBrokerErr, hs, hd]

/-- C3 witness: a read failure, a net.OpError with Op read around an
os.SyscallError whose Temporary method reports false, is retriable even
though the probed Temporary value is false. -/
theorem c3_syscall_retriable_witness :
    hasSyscallError (GoErr.opError "read" (GoErr.syscallError (GoErr.tempLeaf false))) = true ∧
    isDialErr (GoErr.opError "read" (GoErr.syscallError (GoErr.tempLeaf false))) = false ∧
    firstTemporary (GoErr.opError "read" (GoErr.syscallError (GoErr.tempLeaf false))) = some false ∧
    isRetriableBrokerErr
      (some (GoErr.opError "read" (GoErr.syscallError (GoErr.tempLeaf false)))) = true :=
  ⟨by decide, by decide, by decide,
   c3_syscall_retriable (GoErr.opError "read" (GoErr.syscallError (GoErr.tempLeaf false)))
     (by decide) (by decide)⟩

/-- C4: an error whose chain matches errProducerIDLoadFail,
errChosenBrokerDead, errSaslReauthLoop or errCorrelationIDMismatch, with
no os.SyscallError on the chain, is retriable on the same broker. -/
theorem c4_sentinel_retriable (e : GoErr)
    (hs : hasSyscallError e = false)
    (h : errIs e Sentinel.errProducerIDLoadFail = true ∨
         errIs e Sentinel.errChosenBrokerDead = true ∨
         errIs e Sentinel.errSaslReauthLoop = true ∨
         errIs e Sentinel.errCorrelationIDMismatch = true) :
    isRetriableBrokerErr (some e) = true := by
  rcases h with h | h | h | h <;> simp [isRetriableBrokerErr, hs, h]

/-- C4 witness: the errChosenBrokerDead sentinel itself is retriable. -/
theorem c4_sentinel_retriable_witness :
    hasSyscallError (GoErr.simple Sentinel.errChosenBrokerDead) = false ∧
    isRetriableBrokerErr (some (GoErr.simple Sentinel.errChosenBrokerDead)) = true :=
  ⟨by decide,
   c4_sentinel_retriable (GoErr.simple Sentinel.errChosenBrokerDead) (by decide)
     (Or.inr (Or.inl (by decide)))⟩

/-- C5: the errBrokerTooOld and errUnknownRequestKey sentinels are not
retriable on the same broker. -/
theorem c5_too_old_unknown_key_not_retriable :
    isRetriableBrokerErr (some (GoErr.simple Sentinel.errBrokerTooOld)) = false ∧
    isRetriableBrokerErr (some (GoErr.simple Sentinel.errUnknownRequestKey)) = false := by
  decide

/-- C6: the nil error is not retriable. -/
theorem c6_nil_not_retriable : isRetriableBrokerErr none = false := rfl

/-- C7: equality of version tables compares the trimmed effective
prefixes, so tables of different lengths with identical trimmed prefixes
are equal; equality is symmetric; and unsetting a key at or beyond the end
of the table, which only appends trailing -1 entries, never changes
equality. -/
theorem c7_equal_laws :
    (∀ a b : List Int, trimK2v a = trimK2v b → Equal a b = true) ∧
    (∀ a b : List Int, Equal a b = Equal b a) ∧
    (∀ (a b : List Int) (k : Nat), a.length ≤ k →
      Equal (SetMaxKeyVersion a k (-1)) b = Equal a b) := by
  refine ⟨fun a b h => ?_, fun a b => ?_, fun a b k h => ?_⟩
  · simp [Equal, h]
  · simp only [Equal]
    exact decide_eq_decide.mpr eq_comm
  · simp only [Equal, trimK2v_unset_high a k h]

/-- C7 witness: tables of lengths two and three with equal trimmed
prefixes are equal; equality of two concrete tables is symmetric; and
unsetting key 5 of a table of length two leaves equality unchanged. -/
theorem c7_equal_laws_witness :
    Equal [0, 1] [0, 1, -1] = true ∧
    Equal [3] [4] = Equal [4] [3] ∧
    Equal (SetMaxKeyVersion [0, 1] 5 (-1)) [9] = Equal [0, 1] [9] :=
  ⟨c7_equal_laws.1 [0, 1] [0, 1, -1] (by decide),
   c7_equal_laws.2.1 [3] [4],
   c7_equal_laws.2.2 [0, 1] [9] 5 (by decide)⟩

/-- C8: every built in baseline guesses its own canonical release name,
and unsetting key 0 of the v0.8.0 baseline guesses the not even label. -/
theorem c8_baseline_guess :
    (baselines.all fun p => VersionGuess p.2 == p.1) = true ∧
    VersionGuess V0_8_0 = "v0.8.0" ∧
    VersionGuess (SetMaxKeyVersion V0_8_0 0 (-1)) = "not even v0.8.0" := by
  decide

/-- C9: the nil error is not skippable. -/
theorem c9_nil_not_skippable : isSkippableBrokerErr none = false := rfl

/-- C10: the ErrClientClosed sentinel is neither retriable on the same
broker nor skippable to the next broker. -/
theorem c10_client_closed_neither :
    isRetriableBrokerErr (some (GoErr.simple Sentinel.ErrClientClosed)) = false ∧
    isSkippableBrokerErr (some (GoErr.simple Sentinel.ErrClientClosed)) = false := by
  decide
